import Mathlib

/-!
Verification development for the beacon page-observation and highlight system.

The definitions below are shallow embeddings of the TypeScript modules:
  * visibility classification (`domObserver.ts`, `isElementVisible`),
  * stable selector generation (`selectorUtils.ts`, `generateStableSelector`),
  * interaction (click) recording (`domObserver.ts`, `setupInteractionTracking`),
  * the guide request coordinator (`guideCoordinator.ts`),
  * the cross-context message bridge (`messageBridge.ts`),
  * the highlight render engine (`highlightRenderer.ts`),
  * the overlay lifecycle controller (`overlayManager.ts`).

Asynchronous behaviour (timers, message events, transport completions) is
modelled as an explicit event-step machine on an immutable state record; the
browser DOM is modelled as a rose tree of element data.
-/

/-! ## Visibility classifier (`domObserver.ts`, `isElementVisible`) -/

/-- The computed style fields consulted by `isElementVisible`. -/
structure CompStyle where
  display : String
  visibility : String
  opacity : Rat
deriving DecidableEq, Repr

/-- The client-rect fields consulted by `isElementVisible`
(`getBoundingClientRect` results, viewport-relative pixels). -/
structure ClientRect where
  top : Int
  bottom : Int
  width : Int
  height : Int
deriving DecidableEq, Repr

/-- Pixel buffer around the viewport used by `isElementVisible`. -/
def nearViewportBuffer : Int := 1000

/-- Embedding of `isElementVisible(element)`: the checks are performed in the
source order (display, visibility, opacity, zero-size box, near-viewport
test `rect.bottom < -buffer || rect.top > window.innerHeight + buffer`). -/
def isElementVisible (st : CompStyle) (rect : ClientRect) (innerHeight : Int) : Bool :=
  if st.display = "none" then false
  else if st.visibility = "hidden" then false
  else if st.opacity = 0 then false
  else if rect.width = 0 ∨ rect.height = 0 then false
  else if rect.bottom < -nearViewportBuffer ∨ rect.top > innerHeight + nearViewportBuffer then false
  else true

/-- The condition under which claim C4 says `isVisible` returns `false`:
display none, visibility hidden, opacity 0, zero-size box, box entirely more
than 1000 px below the viewport bottom, or box entirely above the viewport
top (the last disjunct carries no buffer in the claim). -/
def claimC4Invisible (st : CompStyle) (rect : ClientRect) (innerHeight : Int) : Prop :=
  st.display = "none" ∨ st.visibility = "hidden" ∨ st.opacity = 0 ∨
  rect.width = 0 ∨ rect.height = 0 ∨
  rect.top > innerHeight + 1000 ∨ rect.bottom < 0

/-- A style that fails none of the style checks. -/
def plainStyle : CompStyle := { display := "block", visibility := "visible", opacity := 1 }

/-- A 100 by 100 box lying entirely above the viewport top, but by less
than 1000 px (top -600, bottom -500). -/
def aboveRect : ClientRect := { top := -600, bottom := -500, width := 100, height := 100 }

/-! ## DOM model and stable selector generation (`selectorUtils.ts`) -/

/-- The attributes of one DOM element consulted by the selector generator and
the interaction recorder. `text` is the element's rendered `textContent`
observation. -/
structure ElemData where
  tag : String
  idAttr : String
  className : String
  text : String
deriving Repr

/-- A DOM element subtree: element data plus child elements in document
order. -/
inductive DTree where
  | mk (data : ElemData) (children : List DTree)

/-- The element data of the root node of a subtree. -/
def DTree.data : DTree → ElemData
  | .mk d _ => d

/-- The child list of the root node of a subtree. -/
def DTree.children : DTree → List DTree
  | .mk _ c => c

/-- Resolve a child-index path from a root element to a descendant.
The empty path denotes the root itself (`document.documentElement`). -/
def subtreeAt : DTree → List Nat → Option DTree
  | t, [] => some t
  | t, i :: p =>
    match t.children[i]? with
    | some c => subtreeAt c p
    | none => none

/-- `tagName.toLowerCase()` (character-list form of the string map, so
that concrete evaluation reduces). -/
def lowerStr (s : String) : String := String.mk (s.data.map Char.toLower)

/-- `text.trim()`: strip whitespace from both ends. -/
def strTrim (s : String) : String :=
  String.mk (((s.data.dropWhile Char.isWhitespace).reverse.dropWhile Char.isWhitespace).reverse)

/-- `text.substring(0, n)`. -/
def strTake (n : Nat) (s : String) : String := String.mk (s.data.take n)

/-- Split a character list at each whitespace character (empty pieces kept,
as `split(/\s+/)` keeps a leading empty piece). -/
def splitWS : List Char → List Char → List String
  | [], acc => [String.mk acc.reverse]
  | ch :: rest, acc =>
    if ch.isWhitespace then String.mk acc.reverse :: splitWS rest []
    else splitWS rest (ch :: acc)

/-- `element.className.split(/\s+/).filter((c) => c)`: split the class
attribute on whitespace and drop empty pieces. -/
def splitClasses (s : String) : List String :=
  (splitWS s.data []).filter (fun c => c ≠ "")

/-- One level of the fallback path selector: the lowercase tag name, with
`:nth-of-type(k)` appended when the parent has more than one child of the
same tag; `k` is `siblings.indexOf(current) + 1`, i.e. one plus the number
of same-tag siblings at an earlier child index. -/
def nthOfTypeLevel (parentChildren : List DTree) (i : Nat) (cur : DTree) : String :=
  let sibs := parentChildren.filter (fun c => c.data.tag = cur.data.tag)
  if sibs.length > 1 then
    let idx := ((parentChildren.take i).filter (fun c => c.data.tag = cur.data.tag)).length + 1
    lowerStr cur.data.tag ++ ":nth-of-type(" ++ toString idx ++ ")"
  else
    lowerStr cur.data.tag

/-- The level strings of `buildPathSelector`, listed from the topmost
ancestor below the root down to the element itself (the source builds the
same list bottom-up with `unshift` while walking `parentElement` links,
stopping at `document.documentElement`, which is excluded). -/
def pathLevelsDown : DTree → List Nat → List String
  | _, [] => []
  | t, i :: rest =>
    match t.children[i]? with
    | none => []
    | some c => nthOfTypeLevel t.children i c :: pathLevelsDown c rest

/-- Embedding of `buildPathSelector(element)`: join the levels with " > ". -/
def buildPathSelector (root : DTree) (path : List Nat) : String :=
  String.intercalate " > " (pathLevelsDown root path)

/-- Embedding of `generateStableSelector(element)`. The element is given as
a child-index path from the document root element. -/
def generateStableSelector (root : DTree) (path : List Nat) : String :=
  match subtreeAt root path with
  | none => ""
  | some el =>
    if el.data.idAttr ≠ "" then "#" ++ el.data.idAttr
    else
      let classes := splitClasses el.data.className
      if classes.length > 0 then
        lowerStr el.data.tag ++ "." ++ String.intercalate "." classes
      else
        buildPathSelector root path

/-- Level `k` of the selector path as described by claim C7: for the
ancestor-or-self at depth `k + 1`, the lowercase tag name, with
`:nth-of-type(k)` (1-based position among same-tag siblings) appended only
when the element has same-tag siblings under its parent. Stated by direct
indexing into the path, independently of the walking recursion. -/
def specLevel (root : DTree) (path : List Nat) (k : Nat) : String :=
  match subtreeAt root (path.take k) with
  | none => ""
  | some parent =>
    match path[k]? with
    | none => ""
    | some i =>
      match parent.children[i]? with
      | none => ""
      | some cur =>
        if ((parent.children.filter (fun c => c.data.tag = cur.data.tag)).length > 1) then
          lowerStr cur.data.tag ++ ":nth-of-type(" ++
            toString (((parent.children.take i).filter
              (fun c => c.data.tag = cur.data.tag)).length + 1) ++ ")"
        else
          lowerStr cur.data.tag

/-- The selector described by claim C7, in the claim's own priority order:
`#id` for a non-empty id attribute; else lowercase tag plus dot-joined
classes when the class list is non-empty; else the " > "-joined path from
the element up to but excluding the root, each level given by `specLevel`. -/
def selectorSpec (root : DTree) (path : List Nat) (el : DTree) : String :=
  if el.data.idAttr ≠ "" then "#" ++ el.data.idAttr
  else if (splitClasses el.data.className).length > 0 then
    lowerStr el.data.tag ++ "." ++ String.intercalate "." (splitClasses el.data.className)
  else
    String.intercalate " > " ((List.range path.length).map (specLevel root path))

/-! ## Interaction recorder (`domObserver.ts`, `setupInteractionTracking`) -/

/-- One recorded interaction. -/
structure Interaction where
  type : String
  elementId : String
  elementText : String
  timestamp : Nat
  x : Int
  y : Int
deriving DecidableEq, Repr

/-- `textContent?.trim().substring(0, 100) || ''` for the element at a
path. -/
def trim100 (s : String) : String := strTake 100 (strTrim s)

/-- The `textContent` observation of the element at a path (empty for an
unresolvable path). -/
def textAt (root : DTree) (p : List Nat) : String :=
  match subtreeAt root p with
  | some t => t.data.text
  | none => ""

/-- The label-resolution loop of the click handler, with the remaining
walk length made explicit for structural recursion: while the current
element exists (fuel left, i.e. the parent chain is not exhausted), the
label is empty and the element is not `document.body`, move to the parent
element and read its trimmed, 100-capped text. -/
def resolveTextAux (root : DTree) (bodyPath : List Nat) :
    Nat → List Nat → String → String
  | fuel, p, txt =>
    if txt ≠ "" then txt
    else if p = bodyPath then txt
    else
      match fuel with
      | 0 => txt
      | fuel2 + 1 => resolveTextAux root bodyPath fuel2 p.dropLast (trim100 (textAt root p.dropLast))

/-- The label-resolution loop, entered at the click target: the walk can
take at most `p.length` steps before `parentElement` is null at the
document root. -/
def resolveText (root : DTree) (bodyPath : List Nat) (p : List Nat) (txt : String) : String :=
  resolveTextAux root bodyPath p.length p txt

/-- The interaction record appended by the click handler: `elementId` is
the stable selector of the click target itself, `elementText` the label
resolved by walking ancestors. -/
def clickRecord (root : DTree) (bodyPath tpath : List Nat) (now : Nat) (cx cy : Int) :
    Interaction :=
  { type := "click"
    elementId := generateStableSelector root tpath
    elementText := resolveText root bodyPath tpath (trim100 (textAt root tpath))
    timestamp := now
    x := cx
    y := cy }

/-- Embedding of the click listener body: append the record, then
`if (interactions.length > maxInteractions) interactions.shift()`. -/
def handleClick (root : DTree) (bodyPath tpath : List Nat) (now : Nat) (cx cy : Int)
    (maxInteractions : Nat) (interactions : List Interaction) : List Interaction :=
  let appended := interactions ++ [clickRecord root bodyPath tpath now cx cy]
  if appended.length > maxInteractions then appended.tail else appended

/-! ## Guide request coordinator (`guideCoordinator.ts`)

The coordinator closure state is a record; the asynchrony (the debounce /
throttle timer and the awaited transport call) is modelled as an explicit
event machine. A scheduled timer is `debounce = some (fireTime, closure)`
where the closure tag records which `setTimeout` call site produced it:
the body of `requestGuideWithThrottle` checks only `if (pendingContext)`,
while the reschedule inside the throttled branch of `sendRequest`
additionally checks `!isRequesting`. A transport call in flight is an entry
of `inFlight`; `transportCalls` logs every transport invocation in order. -/

/-- Snapshot (`PageContext`) values, abstracted to a tag. -/
abbrev Ctx := Nat

/-- Which `setTimeout` call site scheduled the pending timer. -/
inductive CClosure where
  | debounceSend
  | throttleRetry
deriving DecidableEq, Repr

/-- The closure state of one coordinator instance. -/
structure CoordState where
  lastRequestTime : Nat
  debounce : Option (Nat × CClosure)
  pendingContext : Option Ctx
  isRequesting : Bool
  nextToken : Nat
  inFlight : List (Nat × Ctx)
  transportCalls : List Ctx
deriving DecidableEq, Repr

/-- `THROTTLE_INTERVAL_MS`. -/
def throttleIntervalMs : Nat := 1000

/-- `DEBOUNCE_DELAY_MS`. -/
def debounceDelayMs : Nat := 200

/-- The synchronous part of `sendRequest(context)` up to the transport
call: the throttle check either reschedules (replacing any pending timer)
or marks the request in flight, stamps `lastRequestTime` and invokes the
transport. The `await` and the `finally` block are `completeRequest`. -/
def sendRequest (now : Nat) (ctx : Ctx) (s : CoordState) : CoordState :=
  if now - s.lastRequestTime < throttleIntervalMs then
    { s with
      pendingContext := some ctx
      debounce := some (now + (throttleIntervalMs - (now - s.lastRequestTime)),
                        CClosure.throttleRetry) }
  else
    { s with
      isRequesting := true
      lastRequestTime := now
      nextToken := s.nextToken + 1
      inFlight := s.inFlight ++ [(s.nextToken, ctx)]
      transportCalls := s.transportCalls ++ [ctx] }

/-- The `finally` block of `sendRequest`, run when the transport call of
`token` settles: clear `isRequesting` and, if a different `pendingContext`
arrived meanwhile, immediately re-enter `sendRequest` for it. -/
def completeRequest (now : Nat) (token : Nat) (s : CoordState) : CoordState :=
  match s.inFlight.find? (fun p => p.1 = token) with
  | none => s
  | some (_, ctx) =>
    let s1 : CoordState :=
      { s with
        inFlight := s.inFlight.filter (fun p => p.1 ≠ token)
        isRequesting := false }
    match s1.pendingContext with
    | some p => if p ≠ ctx then sendRequest now p s1 else s1
    | none => s1

/-- `requestGuideWithThrottle(context)` (the public `requestGuide`): store
the context as pending and (re)schedule the debounce timer. -/
def requestGuideWithThrottle (now : Nat) (ctx : Ctx) (s : CoordState) : CoordState :=
  { s with
    pendingContext := some ctx
    debounce := some (now + debounceDelayMs, CClosure.debounceSend) }

/-- Fire the pending timer at its scheduled time: clear the handle, then
run the closure body recorded for it. -/
def fireDebounce (now : Nat) (s : CoordState) : CoordState :=
  match s.debounce with
  | none => s
  | some (t, c) =>
    if t = now then
      let s1 := { s with debounce := none }
      match c with
      | CClosure.debounceSend =>
        match s1.pendingContext with
        | some p => sendRequest now p s1
        | none => s1
      | CClosure.throttleRetry =>
        match s1.pendingContext with
        | some p => if s1.isRequesting then s1 else sendRequest now p s1
        | none => s1
    else s

/-- An event visible to one coordinator instance. -/
inductive CEvent where
  | req (t : Nat) (c : Ctx)
  | fire (t : Nat)
  | complete (t : Nat) (token : Nat)
deriving DecidableEq, Repr

/-- Apply one event. -/
def cstep (s : CoordState) (e : CEvent) : CoordState :=
  match e with
  | .req t c => requestGuideWithThrottle t c s
  | .fire t => fireDebounce t s
  | .complete t token => completeRequest t token s

/-- Run an event trace. -/
def crun (s : CoordState) (evs : List CEvent) : CoordState :=
  evs.foldl cstep s

/-- The coordinator state right after `createGuideCoordinator`. -/
def cinit : CoordState :=
  { lastRequestTime := 0, debounce := none, pendingContext := none,
    isRequesting := false, nextToken := 0, inFlight := [], transportCalls := [] }

/-- The interleaving that puts two transport calls in flight at once:
the first request's transport outlasts the throttle interval, and a second
`requestGuide` call's debounce timer fires after the throttle floor has
passed — that call site checks only `if (pendingContext)`, not
`isRequesting`. -/
def c3trace : List CEvent :=
  [CEvent.req 1000 1, CEvent.fire 1200, CEvent.req 2005 2, CEvent.fire 2205]

/-- A burst of two `requestGuide` calls 300 ms apart (both inside a
1000 ms window, the coordinator idle at the start): the first call's
debounce fires and sends before the second call arrives, and the second
snapshot is sent once the throttle floor passes. -/
def c6trace : List CEvent :=
  [CEvent.req 1000 1, CEvent.fire 1200, CEvent.complete 1250 0,
   CEvent.req 1300 2, CEvent.fire 1500, CEvent.fire 2200]

/-- A burst is tight when each call arrives strictly after the previous
one but before the previous debounce timer (200 ms) fires. -/
def burstOK : Nat → List (Nat × Ctx) → Bool
  | _, [] => true
  | prev, (t, _) :: r => decide (prev < t) && decide (t < prev + debounceDelayMs) && burstOK t r

/-- The last call of a burst. -/
def lastCall (t0 : Nat) (c0 : Ctx) (rest : List (Nat × Ctx)) : Nat × Ctx :=
  rest.foldl (fun _ p => p) (t0, c0)

/-- The event trace a tight burst produces: the `requestGuide` calls (each
cancelling the previous debounce timer before it can fire), the surviving
debounce firing 200 ms after the last call, and the completion of the
transport call it dispatches. -/
def burstTrace (t0 : Nat) (c0 : Ctx) (rest : List (Nat × Ctx)) : List CEvent :=
  (((t0, c0) :: rest).map (fun p => CEvent.req p.1 p.2)) ++
    [CEvent.fire ((lastCall t0 c0 rest).1 + debounceDelayMs),
     CEvent.complete ((lastCall t0 c0 rest).1 + 300) 0]

/-- The coordinator state between the calls of a tight burst: debounce
scheduled for the most recent call, nothing sent yet. -/
def midBurstState (t : Nat) (c : Ctx) : CoordState :=
  { lastRequestTime := 0, debounce := some (t + debounceDelayMs, CClosure.debounceSend),
    pendingContext := some c, isRequesting := false, nextToken := 0,
    inFlight := [], transportCalls := [] }

/-! ## Cross-context message bridge (`messageBridge.ts`)

`requestGuideViaContentScript` registers a resolver under a fresh id in
`pendingRequests` and schedules a 30 s timeout; the message handler
delivers a `beacon:guide-response` payload to the registered resolver and
deletes the entry first. Both paths are guarded by map membership, so a
delivery happens only while the id is still pending. `deliveries` logs
every resolution of a promise, with its payload. -/

/-- A guide response payload: the highlight list and the debug reason. -/
structure GuidePayload where
  highlights : List String
  reason : String
deriving DecidableEq, Repr

/-- The fallback payload delivered on timeout:
`{ highlights: [], debug: { reason: 'Request timeout' } }`. -/
def fallbackResponse : GuidePayload := { highlights := [], reason := "Request timeout" }

/-- The sending side's state: the pending-request map (as the list of
registered ids) and the log of resolutions delivered so far. -/
structure BridgeState where
  pending : List String
  deliveries : List (String × GuidePayload)
deriving DecidableEq, Repr

/-- An event on the sending side: a `beacon:guide-response` message with a
correlation id and payload, or the 30 s timeout of a request firing. -/
inductive BEvent where
  | response (id : String) (payload : GuidePayload)
  | timeout (id : String)
deriving DecidableEq, Repr

/-- Apply one bridge event: both the response handler and the timeout
closure check map membership, delete the entry, and only then resolve. -/
def bstep (s : BridgeState) (e : BEvent) : BridgeState :=
  match e with
  | .response id payload =>
    if id ∈ s.pending then
      { pending := s.pending.filter (fun x => x ≠ id),
        deliveries := s.deliveries ++ [(id, payload)] }
    else s
  | .timeout id =>
    if id ∈ s.pending then
      { pending := s.pending.filter (fun x => x ≠ id),
        deliveries := s.deliveries ++ [(id, fallbackResponse)] }
    else s

/-- Run a bridge event trace. -/
def brun (s : BridgeState) (evs : List BEvent) : BridgeState :=
  evs.foldl bstep s

/-- The state right after `requestGuideViaContentScript` registered `id`. -/
def binit (id : String) : BridgeState := { pending := [id], deliveries := [] }

/-- The payloads delivered for a given request id, in order. -/
def deliveredTo (s : BridgeState) (id : String) : List GuidePayload :=
  s.deliveries.filterMap (fun p => if p.1 = id then some p.2 else none)

/-- Does a bridge event carry the given correlation id? -/
def matchesId (id : String) : BEvent → Bool
  | .response i _ => i = id
  | .timeout i => i = id

/-! ## Highlight render engine (`highlightRenderer.ts`)

The engine state holds the `activeHighlights` map (an association list
keyed by selector, in `Map` insertion order), the highlight/tooltip nodes
currently attached under the container (by numeric node id), and the
scheduled `setTimeout` actions with their fire times. Selector resolution
(`document.querySelector`) is an input of each `render` call. Geometry
(`updateHighlightPosition`) does not affect the modelled observations and
is omitted. -/

/-- A `HighlightInstruction`. -/
structure HInstruction where
  selector : String
  style : Option String
  reason : Option String
deriving DecidableEq, Repr

/-- A `HighlightEntry`: the stored instruction, the two DOM node ids, the
tooltip text and title set at node creation, the `visible` flag and the
position-tracking observer flag. -/
structure HEntry where
  instruction : HInstruction
  hNode : Nat
  tNode : Nat
  tooltipText : String
  tooltipTitle : String
  isVisible : Bool
  tracking : Bool
deriving DecidableEq, Repr

/-- A scheduled `setTimeout` body: the 10 ms animate-in tick for a
selector, the 300 ms delayed removal of `clearHighlight` (capturing the
selector and the entry's node ids), or the 300 ms delayed sweep of
`clearAllHighlights` (which reads the live map when it fires). -/
inductive HTimer where
  | animateIn (sel : String)
  | removeOne (sel : String) (h t : Nat)
  | removeAll
deriving DecidableEq, Repr

/-- The outcome of resolving `instruction.selector`: `querySelector`
threw (syntactically invalid selector), matched nothing, or matched an
element. -/
inductive SResult where
  | errorSel
  | notFound
  | found
deriving DecidableEq, Repr

/-- The module state of the highlight renderer. -/
structure HState where
  container : Bool
  active : List (String × HEntry)
  domNodes : List Nat
  nextNode : Nat
  timers : List (Nat × HTimer)
  log : List String
deriving DecidableEq, Repr

/-- Look an entry up by selector (`activeHighlights.get`). -/
def alookup (l : List (String × HEntry)) (k : String) : Option HEntry :=
  (l.find? (fun p => p.1 = k)).map Prod.snd

/-- Update the entry stored under a selector in place. -/
def aupdate (l : List (String × HEntry)) (k : String) (f : HEntry → HEntry) :
    List (String × HEntry) :=
  l.map (fun p => if p.1 = k then (p.1, f p.2) else p)

/-- Remove the entry stored under a selector (`activeHighlights.delete`). -/
def aerase (l : List (String × HEntry)) (k : String) : List (String × HEntry) :=
  l.filter (fun p => p.1 ≠ k)

/-- `ANIMATION_DURATION_MS`. -/
def animationDurationMs : Nat := 300

/-- Embedding of `renderHighlight(instruction)`: lazily create the
container; resolve the selector, logging and returning on failure; then
either update the existing entry's stored instruction or build new
highlight+tooltip nodes (tooltip text and title set from
`instruction.reason || 'Highlighted'`) and register the entry; finally
schedule the 10 ms animate-in tick and (re)start position tracking. -/
def renderHighlight (res : SResult) (inst : HInstruction) (now : Nat) (s : HState) : HState :=
  let s0 := if s.container then s else { s with container := true }
  match res with
  | .errorSel => { s0 with log := s0.log ++ ["invalid selector: " ++ inst.selector] }
  | .notFound => { s0 with log := s0.log ++ ["element not found: " ++ inst.selector] }
  | .found =>
    let s1 :=
      match alookup s0.active inst.selector with
      | some _ =>
        { s0 with active :=
            aupdate s0.active inst.selector (fun e => { e with instruction := inst }) }
      | none =>
        let hN := s0.nextNode
        let tN := s0.nextNode + 1
        let entry : HEntry :=
          { instruction := inst, hNode := hN, tNode := tN,
            tooltipText := inst.reason.getD "Highlighted",
            tooltipTitle := inst.reason.getD "Highlighted",
            isVisible := false, tracking := false }
        { s0 with
          nextNode := s0.nextNode + 2
          domNodes := s0.domNodes ++ [hN, tN]
          active := s0.active ++ [(inst.selector, entry)] }
    let s2 := { s1 with timers := s1.timers ++ [(now + 10, HTimer.animateIn inst.selector)] }
    { s2 with active := aupdate s2.active inst.selector (fun e => { e with tracking := true }) }

/-- Embedding of `clearHighlight(selector)`: if an entry exists, drop its
`visible` classes and schedule the delayed removal closure, which captures
the entry's nodes and the selector. The closure performs no staleness
check when it fires. -/
def clearHighlight (sel : String) (now : Nat) (s : HState) : HState :=
  match alookup s.active sel with
  | none => s
  | some e =>
    { s with
      active := aupdate s.active sel (fun e0 => { e0 with isVisible := false })
      timers := s.timers ++ [(now + animationDurationMs, HTimer.removeOne sel e.hNode e.tNode)] }

/-- Embedding of `clearAllHighlights()`: drop every entry's `visible`
classes and schedule one delayed sweep over the live map. -/
def clearAllHighlights (now : Nat) (s : HState) : HState :=
  { s with
    active := s.active.map (fun p => (p.1, { p.2 with isVisible := false }))
    timers := s.timers ++ [(now + animationDurationMs, HTimer.removeAll)] }

/-- Execute a fired `setTimeout` body. -/
def execTimer (a : HTimer) (s : HState) : HState :=
  match a with
  | .animateIn sel =>
    { s with active := aupdate s.active sel (fun e => { e with isVisible := true }) }
  | .removeOne sel hN tN =>
    { s with
      domNodes := s.domNodes.filter (fun n => n ≠ hN ∧ n ≠ tN)
      active := aerase s.active sel }
  | .removeAll =>
    let ns := (s.active.map (fun p => [p.2.hNode, p.2.tNode])).flatten
    { s with
      domNodes := s.domNodes.filter (fun n => n ∉ ns)
      active := [] }

/-- Fire the first scheduled timer whose fire time is `t`. -/
def hfire (t : Nat) (s : HState) : HState :=
  match s.timers.find? (fun p => p.1 = t) with
  | none => s
  | some (_, a) => execTimer a { s with timers := s.timers.eraseP (fun p => p.1 = t) }

/-- An event of the render engine. -/
inductive HEvent where
  | render (res : SResult) (inst : HInstruction) (t : Nat)
  | clearOne (sel : String) (t : Nat)
  | clearAllEv (t : Nat)
  | fire (t : Nat)
deriving DecidableEq, Repr

/-- Apply one render-engine event. -/
def hstep (s : HState) (e : HEvent) : HState :=
  match e with
  | .render res inst t => renderHighlight res inst t s
  | .clearOne sel t => clearHighlight sel t s
  | .clearAllEv t => clearAllHighlights t s
  | .fire t => hfire t s

/-- The renderer state after `initializeHighlighting` created the
container: empty map, no nodes, no timers. -/
def hinit : HState :=
  { container := true, active := [], domNodes := [], nextNode := 0, timers := [], log := [] }

/-- Run a render-engine event trace from `hinit`. -/
def hrun (evs : List HEvent) : HState :=
  evs.foldl hstep hinit

/-- First instruction for selector "#a", reason "r1". -/
def instA1 : HInstruction := { selector := "#a", style := none, reason := some "r1" }

/-- Second instruction for selector "#a", changed reason "r2". -/
def instA2 : HInstruction := { selector := "#a", style := none, reason := some "r2" }

/-- Two `render` calls for the same selector with differing reasons, each
animate-in tick firing. -/
def c1trace : List HEvent :=
  [HEvent.render SResult.found instA1 0, HEvent.fire 10,
   HEvent.render SResult.found instA2 100, HEvent.fire 110]

/-- A `render` call 100 ms after `clearHighlight` for the same selector,
inside the 300 ms fade-out window; the delayed removal fires at 350. -/
def c2trace : List HEvent :=
  [HEvent.render SResult.found instA1 0, HEvent.fire 10,
   HEvent.clearOne "#a" 50,
   HEvent.render SResult.found instA2 100, HEvent.fire 110,
   HEvent.fire 350]

/-! ## Overlay lifecycle controller (`overlayManager.ts`) -/

/-- The tri-state mode (`BeaconState` in the source). -/
inductive BeaconState where
  | hidden
  | highlightsOnly
  | chat
deriving DecidableEq, Repr

/-- The controller state: mounted flag, current mode, and whether the
capture-phase keyboard-suppression listener is registered. -/
structure OState where
  mounted : Bool
  bstate : BeaconState
  suppressor : Bool
deriving DecidableEq, Repr

/-- An operation on the controller. -/
inductive OEvent where
  | toggle
  | unmount
  | mount
deriving DecidableEq, Repr

/-- The next mode in the toggle cycle. -/
def cycleNext : BeaconState → BeaconState
  | .hidden => .highlightsOnly
  | .highlightsOnly => .chat
  | .chat => .hidden

/-- Apply one controller operation, as the source does: `mount` is
idempotent; `unmount` tears down, forces `hidden` and disables
suppression; `toggle` mounts into highlights-only when unmounted and
otherwise advances the cycle, enabling suppression exactly on entering
chat. -/
def ostep (s : OState) (e : OEvent) : OState :=
  match e with
  | .mount => if s.mounted then s else { s with mounted := true }
  | .unmount =>
    if s.mounted then { mounted := false, bstate := .hidden, suppressor := false } else s
  | .toggle =>
    if s.mounted then
      match s.bstate with
      | .hidden => { s with bstate := .highlightsOnly, suppressor := false }
      | .highlightsOnly => { s with bstate := .chat, suppressor := true }
      | .chat => { s with bstate := .hidden, suppressor := false }
    else
      { mounted := true, bstate := .highlightsOnly, suppressor := false }

/-- The state `createOverlayManager()` leaves behind: mounted, in
highlights-only mode, suppression off. -/
def oinit : OState := { mounted := true, bstate := .highlightsOnly, suppressor := false }

/-- Run a list of controller operations from the freshly created
manager. -/
def orun (evs : List OEvent) : OState :=
  evs.foldl ostep oinit

/-- The controller invariant: suppression is registered exactly in chat
mode, and an unmounted controller is hidden. -/
def OInv (s : OState) : Prop :=
  (s.suppressor = true ↔ s.bstate = .chat) ∧ (s.mounted = false → s.bstate = .hidden)

/-- A concrete second `div` child of `body`, with text "world". -/
def exDiv2 : DTree := DTree.mk ⟨"DIV", "", "", "world"⟩ []

/-- A concrete document: `html` over a `body` (text "Hello") holding two
`div` children; the first `div` has no text of its own. -/
def exHtml : DTree :=
  DTree.mk ⟨"HTML", "", "", "Hello world"⟩
    [DTree.mk ⟨"BODY", "", "", "Hello"⟩
      [DTree.mk ⟨"DIV", "", "", ""⟩ [], exDiv2]]

/-- A previously recorded interaction, used to fill the list to its cap. -/
def exInter : Interaction :=
  { type := "click", elementId := "#x", elementText := "old", timestamp := 0, x := 0, y := 0 }

/-! ## Theorems -/

/-- C1: evaluation at the failing input. After `render("#a", reason "r1")`
followed by `render("#a", reason "r2")`, the map holds exactly one entry
for "#a" and no second pair of DOM nodes was created, the stored
instruction carries the new reason "r2" — but the tooltip node's visible
text is still "r1": the second call does not update the visible tooltip
text to the new reason, refuting the first part of the claim. -/
theorem renderHighlight_reason_update_bug :
    (hrun c1trace).active.length = 1 ∧
    (hrun c1trace).domNodes = [0, 1] ∧
    (alookup (hrun c1trace).active "#a").map (fun e => e.instruction.reason) =
      some (some "r2") ∧
    (alookup (hrun c1trace).active "#a").map (fun e => e.tooltipText) = some "r1" ∧
    (alookup (hrun c1trace).active "#a").map (fun e => e.tooltipTitle) = some "r1" := by
  decide

/-- C2: evaluation at the failing input. `clearHighlight("#a")` at t = 50
schedules the delayed removal for t = 350; a `render` for "#a" at t = 100
re-activates the very same entry, yet when the delayed removal fires the
entry is deleted from the map and its nodes are detached anyway — the
pending clear is not cancelled, refuting the claim. -/
theorem clearHighlight_pending_clear_not_cancelled :
    alookup (hrun c2trace).active "#a" = none ∧
    (hrun c2trace).active = [] ∧
    (hrun c2trace).domNodes = [] := by
  decide

/-- C3: evaluation at the failing input. With the first transport call
still unresolved (networks may take seconds), a second `requestGuide`
call's debounce timer fires after the 1000 ms throttle floor has passed;
that call site checks only `if (pendingContext)` and never `isRequesting`,
so a second transport call is dispatched while the first is in flight:
the trace ends with two entries in flight, refuting "at most one
decision request in flight at a time". -/
theorem guideCoordinator_two_requests_in_flight :
    (crun cinit c3trace).inFlight = [(0, 1), (1, 2)] ∧
    (crun cinit c3trace).inFlight.length = 2 ∧
    (crun cinit c3trace).isRequesting = true := by
  decide

/-- C6 counterexample: two `requestGuide` calls 300 ms apart — a burst of
N = 2 calls well inside one 1000 ms throttle interval, starting from an
idle coordinator — produce two transport invocations, the first carrying
the older snapshot: "exactly one transport invocation" is false as
stated. -/
theorem coordinator_burst_two_transport_calls :
    (crun cinit c6trace).transportCalls = [1, 2] ∧
    (crun cinit c6trace).transportCalls.length ≠ 1 := by
  decide

/-- C4 counterexample: a plainly styled 100 by 100 element lying entirely
above the viewport top but within 1000 px of it (top -600, bottom -500,
viewport height 800). The claim's condition list declares it invisible
(box entirely above the viewport top), but `isElementVisible` returns
`true`: the source applies the 1000 px buffer on the upper side as well
(`rect.bottom < -buffer`). -/
theorem isElementVisible_claim_counterexample :
    ¬ (isElementVisible plainStyle aboveRect 800 = false ↔
        claimC4Invisible plainStyle aboveRect 800) := by
  unfold claimC4Invisible
  decide

/-- C4 amended: `isVisible` returns false exactly when computed display is
"none", computed visibility is "hidden", computed opacity resolves to 0,
the rendered box has zero width or height, the box lies entirely more than
1000 px below the viewport bottom, or the box lies entirely more than
1000 px above the viewport top; it returns true for every other element. -/
theorem isElementVisible_characterization (st : CompStyle) (rect : ClientRect)
    (innerHeight : Int) :
    isElementVisible st rect innerHeight = false ↔
      (st.display = "none" ∨ st.visibility = "hidden" ∨ st.opacity = 0 ∨
       rect.width = 0 ∨ rect.height = 0 ∨
       rect.bottom < -1000 ∨ rect.top > innerHeight + 1000) := by
  unfold isElementVisible nearViewportBuffer
  split_ifs with h1 h2 h3 h4 h5 <;> simp_all <;> tauto

/-- C10: `renderHighlight` is a total function of the resolution outcome
(embedded as such; the only `throw` in the module is unreachable because
the container is created first), and on a resolution failure — selector
error or no match — it logs a warning and returns with the
active-highlight map, the rendered nodes and the scheduled timers
unchanged. -/
theorem renderHighlight_total_on_resolution_failure (inst : HInstruction) (now : Nat)
    (s : HState) :
    ((renderHighlight SResult.errorSel inst now s).active = s.active ∧
     (renderHighlight SResult.errorSel inst now s).domNodes = s.domNodes ∧
     (renderHighlight SResult.errorSel inst now s).timers = s.timers ∧
     (renderHighlight SResult.errorSel inst now s).log =
       s.log ++ ["invalid selector: " ++ inst.selector]) ∧
    ((renderHighlight SResult.notFound inst now s).active = s.active ∧
     (renderHighlight SResult.notFound inst now s).domNodes = s.domNodes ∧
     (renderHighlight SResult.notFound inst now s).timers = s.timers ∧
     (renderHighlight SResult.notFound inst now s).log =
       s.log ++ ["element not found: " ++ inst.selector]) := by
  cases hc : s.container <;> simp [renderHighlight, hc]

/-- The controller invariant holds initially. -/
theorem oinv_init : OInv oinit := by
  constructor
  · constructor <;> intro h <;> simp [oinit] at h
  · intro h
    simp [oinit] at h

/-- The controller invariant is preserved by every operation. -/
theorem oinv_step (s : OState) (e : OEvent) (h : OInv s) : OInv (ostep s e) := by
  obtain ⟨m, b, k⟩ := s
  cases e <;> cases m <;> cases b <;> cases k <;>
    simp_all [ostep, OInv]

/-- The controller invariant holds in every reachable state. -/
theorem oinv_run (evs : List OEvent) : OInv (orun evs) := by
  suffices hgen : ∀ (l : List OEvent) (s : OState), OInv s → OInv (l.foldl ostep s) by
    exact hgen evs oinit oinv_init
  intro l
  induction l with
  | nil => intro s hs; exact hs
  | cons e l ih => intro s hs; exact ih (ostep s e) (oinv_step s e hs)

/-- C9: the overlay controller starts in highlights-only with the
suppressor unregistered; in every reachable state the capture-phase
keyboard suppressor is registered exactly when the mode is chat; every
`toggle()` advances exactly one step through the cycle
hidden → highlights-only → chat → hidden; and `unmount()` forces the mode
to hidden with the suppressor unregistered. -/
theorem overlay_state_machine_correct :
    oinit.bstate = BeaconState.highlightsOnly ∧ oinit.suppressor = false ∧
    ∀ evs : List OEvent,
      ((orun evs).suppressor = true ↔ (orun evs).bstate = BeaconState.chat) ∧
      (ostep (orun evs) OEvent.toggle).bstate = cycleNext (orun evs).bstate ∧
      (ostep (orun evs) OEvent.unmount).bstate = BeaconState.hidden ∧
      (ostep (orun evs) OEvent.unmount).suppressor = false := by
  refine ⟨rfl, rfl, fun evs => ?_⟩
  have hinv := oinv_run evs
  revert hinv
  generalize orun evs = s
  obtain ⟨m, b, k⟩ := s
  rintro ⟨h1, h2⟩
  cases m <;> cases b <;> cases k <;> simp_all [ostep, cycleNext]

/-- Bridge events that do not carry a given id leave that id's pending
status and delivery log untouched. -/
theorem bridge_preserve_no_id (id : String) :
    ∀ (evs : List BEvent) (s : BridgeState),
      (∀ e ∈ evs, matchesId id e = false) →
      ((id ∈ (brun s evs).pending ↔ id ∈ s.pending) ∧
       deliveredTo (brun s evs) id = deliveredTo s id) := by
  intro evs
  induction evs with
  | nil => intro s _; exact ⟨Iff.rfl, rfl⟩
  | cons e l ih =>
    intro s hno
    have he : matchesId id e = false := hno e (List.mem_cons_self e l)
    have hl : ∀ e' ∈ l, matchesId id e' = false := fun e' h => hno e' (List.mem_cons_of_mem e h)
    have hstep : (id ∈ (bstep s e).pending ↔ id ∈ s.pending) ∧
        deliveredTo (bstep s e) id = deliveredTo s id := by
      cases e with
      | response i p =>
        have hne : i ≠ id := by simpa [matchesId] using he
        by_cases hi : i ∈ s.pending <;>
          simp [bstep, hi, deliveredTo, List.filterMap_append, hne, Ne.symm hne]
      | timeout i =>
        have hne : i ≠ id := by simpa [matchesId] using he
        by_cases hi : i ∈ s.pending <;>
          simp [bstep, hi, deliveredTo, List.filterMap_append, hne, Ne.symm hne]
    have hrec := ih (bstep s e) hl
    constructor
    · rw [brun] at hrec ⊢
      simp only [List.foldl_cons]
      exact (hrec.1).trans hstep.1
    · rw [brun] at hrec ⊢
      simp only [List.foldl_cons]
      exact (hrec.2).trans hstep.2

/-- Once an id has left the pending map, no later event — matching or not,
duplicate responses included — re-adds it or delivers anything further
for it. -/
theorem bridge_stable_after (id : String) :
    ∀ (evs : List BEvent) (s : BridgeState),
      id ∉ s.pending →
      (id ∉ (brun s evs).pending ∧ deliveredTo (brun s evs) id = deliveredTo s id) := by
  intro evs
  induction evs with
  | nil => intro s hs; exact ⟨hs, rfl⟩
  | cons e l ih =>
    intro s hs
    have hstep : id ∉ (bstep s e).pending ∧ deliveredTo (bstep s e) id = deliveredTo s id := by
      cases e with
      | response i p =>
        by_cases hii : i = id
        · subst hii; simp [bstep, hs]
        · by_cases hi : i ∈ s.pending <;>
            simp [bstep, hi, hs, deliveredTo, List.filterMap_append, hii, Ne.symm hii]
      | timeout i =>
        by_cases hii : i = id
        · subst hii; simp [bstep, hs]
        · by_cases hi : i ∈ s.pending <;>
            simp [bstep, hi, hs, deliveredTo, List.filterMap_append, hii, Ne.symm hii]
    have hrec := ih (bstep s e) hstep.1
    constructor
    · rw [brun] at hrec ⊢
      simpa only [List.foldl_cons] using hrec.1
    · rw [brun] at hrec ⊢
      simp only [List.foldl_cons]
      exact (hrec.2).trans hstep.2

/-- C5: if no response carrying the request's correlation id arrives
before the timeout fires, the request resolves exactly once, with the
fallback payload (empty highlights plus the diagnostic reason), and the id
is gone from the pending-request map; every later event — including
duplicate responses for the same id — delivers nothing further. -/
theorem bridge_timeout_exactly_once (id : String) (evs evs2 : List BEvent)
    (hno : ∀ e ∈ evs, matchesId id e = false) :
    deliveredTo (brun (binit id) ((evs ++ [BEvent.timeout id]) ++ evs2)) id =
      [fallbackResponse] ∧
    id ∉ (brun (binit id) ((evs ++ [BEvent.timeout id]) ++ evs2)).pending := by
  have h1 := bridge_preserve_no_id id evs (binit id) hno
  have hidp : id ∈ (brun (binit id) evs).pending := (h1.1).mpr (by simp [binit])
  have hdel : deliveredTo (brun (binit id) evs) id = [] := by
    rw [h1.2]; simp [binit, deliveredTo]
  have hsplit : brun (binit id) ((evs ++ [BEvent.timeout id]) ++ evs2) =
      brun (bstep (brun (binit id) evs) (BEvent.timeout id)) evs2 := by
    simp [brun, List.foldl_append]
  have h2a : id ∉ (bstep (brun (binit id) evs) (BEvent.timeout id)).pending := by
    simp [bstep, hidp]
  have h2b : deliveredTo (bstep (brun (binit id) evs) (BEvent.timeout id)) id =
      [fallbackResponse] := by
    simp [bstep, hidp, deliveredTo, List.filterMap_append]
    simpa [deliveredTo] using hdel
  have h3 := bridge_stable_after id evs2 (bstep (brun (binit id) evs) (BEvent.timeout id)) h2a
  rw [hsplit]
  exact ⟨h3.2.trans h2b, h3.1⟩

/-- C5 witness: a request with id "beacon-1" sees an unrelated response,
then its own timeout, then a late duplicate response for its own id; it
resolves exactly once with the fallback payload and stays out of the
pending map. -/
theorem bridge_timeout_exactly_once_witness :
    (∀ e ∈ [BEvent.response "other" ⟨["x"], "ok"⟩], matchesId "beacon-1" e = false) ∧
    deliveredTo (brun (binit "beacon-1")
        (([BEvent.response "other" ⟨["x"], "ok"⟩] ++ [BEvent.timeout "beacon-1"]) ++
          [BEvent.response "beacon-1" ⟨["late"], "late"⟩])) "beacon-1" =
      [fallbackResponse] ∧
    "beacon-1" ∉ (brun (binit "beacon-1")
        (([BEvent.response "other" ⟨["x"], "ok"⟩] ++ [BEvent.timeout "beacon-1"]) ++
          [BEvent.response "beacon-1" ⟨["late"], "late"⟩])).pending := by
  refine ⟨by decide, ?_, ?_⟩
  · exact (bridge_timeout_exactly_once "beacon-1" _ _ (by decide)).1
  · exact (bridge_timeout_exactly_once "beacon-1"
      [BEvent.response "other" ⟨["x"], "ok"⟩]
      [BEvent.response "beacon-1" ⟨["late"], "late"⟩] (by decide)).2

/-- Running an appended trace runs the pieces in sequence. -/
theorem crun_append (s : CoordState) (a b : List CEvent) :
    crun s (a ++ b) = crun (crun s a) b := by
  simp [crun, List.foldl_append]

/-- One `requestGuide` call between the calls of a tight burst just
replaces the pending context and the debounce timer. -/
theorem cstep_req_mid (t : Nat) (c : Ctx) (t2 : Nat) (c2 : Ctx) :
    cstep (midBurstState t c) (CEvent.req t2 c2) = midBurstState t2 c2 := rfl

/-- Folding the `requestGuide` calls of a burst over the state left by the
first call lands in the mid-burst state of the last call. -/
theorem burst_fold (rest : List (Nat × Ctx)) :
    ∀ (t : Nat) (c : Ctx),
      (rest.map (fun p => CEvent.req p.1 p.2)).foldl cstep (midBurstState t c) =
        midBurstState (lastCall t c rest).1 (lastCall t c rest).2 := by
  induction rest with
  | nil => intro t c; rfl
  | cons p r ih =>
    intro t c
    simp only [List.map_cons, List.foldl_cons, cstep_req_mid]
    rw [ih p.1 p.2]
    simp [lastCall]

/-- In a tight burst the call times only grow. -/
theorem lastCall_ge (rest : List (Nat × Ctx)) :
    ∀ (t : Nat) (c : Ctx), burstOK t rest = true → t ≤ (lastCall t c rest).1 := by
  induction rest with
  | nil => intro t c _; exact Nat.le_refl t
  | cons p r ih =>
    intro t c hb
    simp only [burstOK, Bool.and_eq_true, decide_eq_true_eq] at hb
    have h1 : t < p.1 := hb.1.1
    have h2 : burstOK p.1 r = true := hb.2
    have : lastCall t c (p :: r) = lastCall p.1 p.2 r := by simp [lastCall]
    rw [this]
    exact Nat.le_of_lt (Nat.lt_of_lt_of_le h1 (ih p.1 p.2 h2))

/-- Firing the surviving debounce timer of a tight burst sends the last
snapshot, and the completion of that transport call re-sends nothing. -/
theorem fire_complete_mid (tN : Nat) (cN : Ctx) (h : 1000 ≤ tN) :
    crun (midBurstState tN cN)
      [CEvent.fire (tN + debounceDelayMs), CEvent.complete (tN + 300) 0] =
    { lastRequestTime := tN + debounceDelayMs, debounce := none,
      pendingContext := some cN, isRequesting := false, nextToken := 1,
      inFlight := [], transportCalls := [cN] } := by
  have hns : ¬ (tN + debounceDelayMs < throttleIntervalMs) := by
    unfold debounceDelayMs throttleIntervalMs
    omega
  simp [crun, cstep, fireDebounce, midBurstState, sendRequest, hns, completeRequest,
    List.find?]

/-- C6 amended: starting from an idle coordinator, a burst of N ≥ 1
`requestGuide` calls in which every call arrives within less than the
debounce delay (200 ms) of the previous one triggers exactly one transport
invocation, whose argument is the snapshot of the most recent call; after
that call completes, no timer is scheduled and nothing is in flight, so no
further invocation occurs. -/
theorem coordinator_tight_burst_single_send (t0 : Nat) (c0 : Ctx)
    (rest : List (Nat × Ctx)) (h0 : 1000 ≤ t0) (hb : burstOK t0 rest = true) :
    (crun cinit (burstTrace t0 c0 rest)).transportCalls = [(lastCall t0 c0 rest).2] ∧
    (crun cinit (burstTrace t0 c0 rest)).debounce = none ∧
    (crun cinit (burstTrace t0 c0 rest)).inFlight = [] ∧
    (crun cinit (burstTrace t0 c0 rest)).isRequesting = false := by
  have htN : 1000 ≤ (lastCall t0 c0 rest).1 :=
    Nat.le_trans h0 (lastCall_ge rest t0 c0 hb)
  have hreqs : crun cinit (((t0, c0) :: rest).map (fun p => CEvent.req p.1 p.2)) =
      midBurstState (lastCall t0 c0 rest).1 (lastCall t0 c0 rest).2 := by
    simp only [List.map_cons, crun, List.foldl_cons]
    have h1 : cstep cinit (CEvent.req t0 c0) = midBurstState t0 c0 := rfl
    rw [h1]
    exact burst_fold rest t0 c0
  have hfin := fire_complete_mid (lastCall t0 c0 rest).1 (lastCall t0 c0 rest).2 htN
  unfold burstTrace
  rw [crun_append, hreqs, hfin]
  exact ⟨rfl, rfl, rfl, rfl⟩

/-- C6 witness: a tight burst of two calls (snapshots 5 then 7, 100 ms
apart, starting idle) triggers exactly one transport invocation, carrying
the last snapshot 7. -/
theorem coordinator_tight_burst_single_send_witness :
    ((1000 : Nat) ≤ 1000 ∧ burstOK 1000 [(1100, 7)] = true) ∧
    (crun cinit (burstTrace 1000 5 [(1100, 7)])).transportCalls = [7] ∧
    (crun cinit (burstTrace 1000 5 [(1100, 7)])).debounce = none := by
  refine ⟨⟨by decide, by decide⟩, ?_, ?_⟩
  · have h := coordinator_tight_burst_single_send 1000 5 [(1100, 7)] (by decide) (by decide)
    simpa [lastCall] using h.1
  · exact (coordinator_tight_burst_single_send 1000 5 [(1100, 7)]
      (by decide) (by decide)).2.1

/-- Level `k + 1` of a path's claim-side description is level `k` of the
description relative to the first child on the path. -/
theorem specLevel_cons (root c : DTree) (i : Nat) (rest : List Nat) (k : Nat)
    (hc : root.children[i]? = some c) :
    specLevel root (i :: rest) (k + 1) = specLevel c rest k := by
  unfold specLevel
  rw [List.take_succ_cons]
  simp [subtreeAt, hc]

/-- The walking recursion of `buildPathSelector` computes exactly the
level list described by claim C7 as direct indexing over the initial
segments of the path. -/
theorem pathLevelsDown_eq_spec :
    ∀ (path : List Nat) (root el : DTree), subtreeAt root path = some el →
      pathLevelsDown root path = (List.range path.length).map (specLevel root path) := by
  intro path
  induction path with
  | nil => intro root el _; rfl
  | cons i rest ih =>
    intro root el hsub
    cases hc : root.children[i]? with
    | none => simp [subtreeAt, hc] at hsub
    | some c =>
      simp only [subtreeAt, hc] at hsub
      have hspec0 : specLevel root (i :: rest) 0 = nthOfTypeLevel root.children i c := by
        unfold specLevel
        simp [subtreeAt, hc, nthOfTypeLevel]
      calc pathLevelsDown root (i :: rest)
          = nthOfTypeLevel root.children i c :: pathLevelsDown c rest := by
            simp [pathLevelsDown, hc]
        _ = nthOfTypeLevel root.children i c ::
              (List.range rest.length).map (specLevel c rest) := by
            rw [ih c el hsub]
        _ = (List.range (i :: rest).length).map (specLevel root (i :: rest)) := by
            simp only [List.length_cons, List.range_succ_eq_map, List.map_cons,
              List.map_map]
            rw [hspec0]
            congr 1
            apply List.map_congr_left
            intro k _
            exact (specLevel_cons root c i rest k hc).symm

/-- C7: `generateStableSelector` is total (a plain function into strings)
and computes, for every element of every document, exactly the selector
described by the claim: `#id` for a non-empty id attribute, else the
lowercase tag with all dot-joined classes when the class list is
non-empty, else the " > "-joined path up to but excluding the root with
`:nth-of-type(k)` only at levels with same-tag siblings. -/
theorem generateStableSelector_matches_spec (root : DTree) (path : List Nat) (el : DTree)
    (hsub : subtreeAt root path = some el) :
    generateStableSelector root path = selectorSpec root path el := by
  unfold generateStableSelector selectorSpec
  rw [hsub]
  by_cases hid : el.data.idAttr = ""
  · by_cases hcl : (splitClasses el.data.className).length > 0
    · simp [hid, hcl]
    · simp only [hid, ne_eq, not_true_eq_false, if_false, hcl]
      rw [buildPathSelector, pathLevelsDown_eq_spec path root el hsub]
  · simp [hid]

/-- C7 witness: in a concrete document (`html > body > div + div`), the
second `div` — no id, no classes — gets the path selector
"body > div:nth-of-type(2)", agreeing with the claim's description. -/
theorem generateStableSelector_matches_spec_witness :
    subtreeAt exHtml [0, 1] = some exDiv2 ∧
    generateStableSelector exHtml [0, 1] = selectorSpec exHtml [0, 1] exDiv2 ∧
    generateStableSelector exHtml [0, 1] = "body > div:nth-of-type(2)" := by
  refine ⟨rfl, generateStableSelector_matches_spec exHtml [0, 1] exDiv2 rfl, ?_⟩
  decide

/-- C8: after any recorded click, the interaction list stays within the
configured cap; when the list was full the oldest entry is evicted first
and the new record is appended last; when it was not full the record is
simply appended; and the appended record's `elementId` is the stable
selector of the click target itself (the ancestor walk affects only
`elementText`). -/
theorem interaction_tracking_cap_fifo (root : DTree) (bodyPath tpath : List Nat)
    (now : Nat) (cx cy : Int) (maxInteractions : Nat) (l : List Interaction)
    (hcap : 1 ≤ maxInteractions) (hlen : l.length ≤ maxInteractions) :
    (handleClick root bodyPath tpath now cx cy maxInteractions l).length ≤ maxInteractions ∧
    (l.length < maxInteractions →
      handleClick root bodyPath tpath now cx cy maxInteractions l =
        l ++ [clickRecord root bodyPath tpath now cx cy]) ∧
    (l.length = maxInteractions →
      handleClick root bodyPath tpath now cx cy maxInteractions l =
        l.tail ++ [clickRecord root bodyPath tpath now cx cy]) ∧
    (clickRecord root bodyPath tpath now cx cy).elementId =
      generateStableSelector root tpath := by
  refine ⟨?_, ?_, ?_, rfl⟩
  · simp only [handleClick]
    split
    · simp only [List.length_tail, List.length_append, List.length_singleton]
      omega
    · rename_i hov
      simp only [List.length_append, List.length_singleton] at hov ⊢
      omega
  · intro hlt
    simp only [handleClick]
    rw [if_neg (by simp only [List.length_append, List.length_singleton]; omega)]
  · intro heq
    simp only [handleClick]
    rw [if_pos (by simp only [List.length_append, List.length_singleton]; omega)]
    cases l with
    | nil =>
      exfalso
      simp only [List.length_nil] at heq
      omega
    | cons a t => simp

/-- C8 witness: with cap 1 and a full list, a click on the first `div`
(whose own text is empty, so the label comes from the `body` ancestor)
evicts the old record, appends the new one, keeps the length at the cap,
and stamps the target's own selector as `elementId`. -/
theorem interaction_tracking_cap_fifo_witness :
    ((1 : Nat) ≤ 1 ∧ [exInter].length ≤ 1) ∧
    handleClick exHtml [0] [0, 0] 9 2 3 1 [exInter] =
      [clickRecord exHtml [0] [0, 0] 9 2 3] ∧
    (clickRecord exHtml [0] [0, 0] 9 2 3).elementText = "Hello" ∧
    (clickRecord exHtml [0] [0, 0] 9 2 3).elementId = "body > div:nth-of-type(1)" := by
  refine ⟨⟨by decide, by decide⟩, ?_, by decide, by decide⟩
  have h := (interaction_tracking_cap_fifo exHtml [0] [0, 0] 9 2 3 1 [exInter]
    (by decide) (by decide)).2.2.1 (by decide)
  simpa using h
